import Mathlib

/-!
Shallow embedding of `src/abstract_watcher.py`, class `StudentWatcher`
(lines 65-115), the supervisor of the background-task spec.

The Python object keeps four attributes: `self.registrator` and
`self.timeout`, both fixed in `__init__`; the private flag
`self.__is_running`; and the list `self.tasks` of `asyncio.Task`
objects.  A task object is modelled by the natural number identifying
it; the field `next_id` models the fact that `asyncio.create_task`
returns a fresh object on every call.  What a spawned coroutine does is
abstracted by an oracle `env : Nat -> Option (Outcome α ε)` supplied to
`stop`: `some (Outcome.value v)` means the task is in the `done` set of
`asyncio.wait` with result `v`, `some (Outcome.error e)` means it is in
`done` having raised `e`, and `none` means it is still in the `pending`
set when the wait (bounded by the configured timeout) returns.
`asyncio.wait` raises `ValueError` when handed an empty collection;
`stop` models that branch with `WatcherError.emptyWaitValueError`.
Calls made to the registrator, and cancellations, are recorded as an
event trace rather than as mutation of an external object.
-/

namespace AbstractWatcher

variable {ρ τ α ε : Type}

/-- Outcome of a task that is in the `done` set of the wait in `stop`:
either the value it returned or the exception it raised. -/
inductive Outcome (α ε : Type) where
  | value (v : α)
  | error (e : ε)
  deriving DecidableEq, Repr

/-- Externally observable calls issued by `stop` (src lines 104-107):
registrator calls for done tasks and cancellation requests for pending
tasks.  Each event carries the id of the task it concerns, the loop
variable `task` at the call site. -/
inductive Event (α ε : Type) where
  | register_value (tid : Nat) (v : α)
  | register_error (tid : Nat) (e : ε)
  | cancel (tid : Nat)
  deriving DecidableEq, Repr

/-- Exceptions the Python methods raise: the two `RuntimeError`s of the
guards (src lines 85, 102, 113) and the `ValueError` that
`asyncio.wait` raises on an empty task collection (src line 103). -/
inductive WatcherError where
  | alreadyRunning
  | notRunning
  | emptyWaitValueError
  deriving DecidableEq, Repr

/-- State of a `StudentWatcher` object (src lines 66-71). `ρ` is the
type of the registrator reference, `τ` the type of the timeout value;
both are opaque data to the supervisor. -/
structure StudentWatcher (ρ τ : Type) where
  registrator : ρ
  timeout : Option τ
  is_running : Bool
  tasks : List Nat
  next_id : Nat
  deriving DecidableEq, Repr

/-- `StudentWatcher.__init__` (src lines 66-71): stores the registrator
and timeout, starts not running with an empty task list. -/
def init (registrator : ρ) (timeout : Option τ) : StudentWatcher ρ τ :=
  { registrator := registrator, timeout := timeout,
    is_running := false, tasks := [], next_id := 0 }

/-- `StudentWatcher.__register_task` (src lines 77-81): if
`task.exception()` is not `None` call `register_error` with it,
otherwise call `register_value` with `task.result()`.  Returns the
event the call produces, tagged with the task's id. -/
def register_task (tid : Nat) : Outcome α ε → Event α ε
  | .error e => .register_error tid e
  | .value v => .register_value tid v

/-- `StudentWatcher.start` (src lines 83-86): raise if already running,
otherwise set the flag.  The task list is not touched. -/
def start (s : StudentWatcher ρ τ) : Except WatcherError (StudentWatcher ρ τ) :=
  if s.is_running then .error .alreadyRunning
  else .ok { s with is_running := true }

/-- The registrator calls of the first loop of `stop` (src lines
104-105): one call per task in the `done` set of the wait, via
`__register_task`. -/
def recsOf (env : Nat → Option (Outcome α ε)) (l : List Nat) : List (Event α ε) :=
  l.filterMap fun t => (env t).map (register_task t)

/-- The cancellation requests of the second loop of `stop` (src lines
106-107): `task.cancel()` for every task in the `pending` set. -/
def cancelsOf (env : Nat → Option (Outcome α ε)) (l : List Nat) : List (Event α ε) :=
  (l.filter fun t => (env t).isNone).map Event.cancel

/-- `StudentWatcher.stop` (src lines 88-109): raise if not running;
`await asyncio.wait(self.tasks, timeout=self.timeout)`, which raises
`ValueError` when `self.tasks` is empty and otherwise partitions the
tasks into `done` and `pending` (decided here by the oracle `env`);
register every done task, cancel every pending one, then clear the task
list and drop the running flag.  Returns the new state together with
the trace of registrator calls and cancellations, in issue order. -/
def stop (env : Nat → Option (Outcome α ε)) (s : StudentWatcher ρ τ) :
    Except WatcherError (StudentWatcher ρ τ × List (Event α ε)) :=
  if !s.is_running then .error .notRunning
  else if s.tasks.isEmpty then .error .emptyWaitValueError
  else .ok ({ s with tasks := [], is_running := false },
            recsOf env s.tasks ++ cancelsOf env s.tasks)

/-- `StudentWatcher.start_and_watch` (src lines 111-115): raise if not
running, otherwise create a fresh task from the coroutine and append it
to the watch list.  The coroutine's behaviour is only observed at
`stop` time, through the oracle, so it is not a parameter here. -/
def start_and_watch (s : StudentWatcher ρ τ) : Except WatcherError (StudentWatcher ρ τ) :=
  if !s.is_running then .error .notRunning
  else .ok { s with tasks := s.tasks ++ [s.next_id], next_id := s.next_id + 1 }

/-- One call a client can make on the watcher. -/
inductive Op (α ε : Type) where
  | start
  | spawn
  | stop (env : Nat → Option (Outcome α ε))

/-- Execute one call: a raised exception propagates to the client and
leaves the object unchanged, producing no events. -/
def step (s : StudentWatcher ρ τ) : Op α ε → StudentWatcher ρ τ × List (Event α ε)
  | .start =>
      match start s with
      | .ok s' => (s', [])
      | .error _ => (s, [])
  | .spawn =>
      match start_and_watch s with
      | .ok s' => (s', [])
      | .error _ => (s, [])
  | .stop env =>
      match stop env s with
      | .ok r => r
      | .error _ => (s, [])

/-- Execute a sequence of calls, accumulating the event trace. -/
def run (s : StudentWatcher ρ τ) : List (Op α ε) → StudentWatcher ρ τ × List (Event α ε)
  | [] => (s, [])
  | op :: ops =>
      let p := step s op
      let q := run p.1 ops
      (q.1, p.2 ++ q.2)

/-- State invariant maintained by every call: the task list is empty
whenever the watcher is not running, task ids are distinct (fresh
`asyncio.Task` objects), and all ids are below the freshness counter. -/
def Inv (s : StudentWatcher ρ τ) : Prop :=
  (s.is_running = false → s.tasks = []) ∧
  s.tasks.Nodup ∧ ∀ t ∈ s.tasks, t < s.next_id

/-- Id of the task an event concerns. -/
def Event.tid : Event α ε → Nat
  | .register_value t _ => t
  | .register_error t _ => t
  | .cancel t => t

/-- Whether an event is a registrator call (`register_value` or
`register_error`). -/
def Event.isRecorderCall : Event α ε → Bool
  | .cancel _ => false
  | _ => true

/-- Whether an event is a cancellation request. -/
def Event.isCancel : Event α ε → Bool
  | .cancel _ => true
  | _ => false

/-- Characterisation of a successful `stop`: it requires the running
flag and a non-empty task list, clears both, and emits the registrator
calls for the done tasks followed by the cancellations of the pending
ones. -/
theorem stop_ok (env : Nat → Option (Outcome α ε)) (s s' : StudentWatcher ρ τ)
    (evs : List (Event α ε)) (h : stop env s = Except.ok (s', evs)) :
    s.is_running = true ∧ s.tasks ≠ [] ∧
    s' = { s with tasks := [], is_running := false } ∧
    evs = recsOf env s.tasks ++ cancelsOf env s.tasks := by
  unfold stop at h
  by_cases hr : s.is_running
  · by_cases he : s.tasks.isEmpty
    · simp [hr, he] at h
    · simp [hr, he] at h
      exact ⟨hr, by simpa [List.isEmpty_iff] using he, h.1.symm, h.2.symm⟩
  · simp [Bool.not_eq_true] at hr
    simp [hr] at h

/-- The event `__register_task` produces concerns the task it was
called on. -/
theorem tid_register_task (t : Nat) (o : Outcome α ε) :
    (register_task t o : Event α ε).tid = t := by
  cases o <;> rfl

/-- The registrator loop emits no event about a task that is not in the
list. -/
theorem filter_tid_recsOf_not_mem (env : Nat → Option (Outcome α ε)) (tid : Nat)
    (l : List Nat) (h : tid ∉ l) :
    (recsOf env l).filter (fun e => e.tid == tid) = [] := by
  induction l with
  | nil => rfl
  | cons t l ih =>
    have ht : ¬t = tid := fun hc => h (hc ▸ List.mem_cons_self t l)
    have hl : tid ∉ l := fun hc => h (List.mem_cons_of_mem t hc)
    cases henv : env t <;>
      simp [recsOf, List.filterMap_cons, henv, List.filter_cons, tid_register_task, ht] <;>
      simpa [recsOf] using ih hl

/-- The cancellation loop emits no event about a task that is not in
the list. -/
theorem filter_tid_cancelsOf_not_mem (env : Nat → Option (Outcome α ε)) (tid : Nat)
    (l : List Nat) (h : tid ∉ l) :
    (cancelsOf env l).filter (fun e => e.tid == tid) = [] := by
  induction l with
  | nil => rfl
  | cons t l ih =>
    have ht : ¬t = tid := fun hc => h (hc ▸ List.mem_cons_self t l)
    have hl : tid ∉ l := fun hc => h (List.mem_cons_of_mem t hc)
    cases henv : env t <;>
      simp [cancelsOf, List.filter_cons, henv, Event.tid, ht] <;>
      simpa [cancelsOf] using ih hl

/-- A task the oracle reports as done contributes exactly its
registrator call to the first loop, provided task ids are distinct. -/
theorem filter_tid_recsOf_some (env : Nat → Option (Outcome α ε)) (tid : Nat)
    (o : Outcome α ε) (l : List Nat) (hnd : l.Nodup) (ht : tid ∈ l)
    (ho : env tid = some o) :
    (recsOf env l).filter (fun e => e.tid == tid) = [register_task tid o] := by
  induction l with
  | nil => cases ht
  | cons t l ih =>
    obtain ⟨htl, hnd'⟩ := List.nodup_cons.mp hnd
    rcases List.mem_cons.mp ht with heq | hmem
    · subst heq
      simp [recsOf, List.filterMap_cons, ho, List.filter_cons, tid_register_task]
      simpa [recsOf] using filter_tid_recsOf_not_mem env tid l htl
    · have ht' : ¬t = tid := fun hc => htl (hc ▸ hmem)
      cases henv : env t <;>
        simp [recsOf, List.filterMap_cons, henv, List.filter_cons, tid_register_task, ht'] <;>
        simpa [recsOf] using ih hnd' hmem

/-- A task the oracle reports as done is not in the pending set, so the
cancellation loop emits nothing about it. -/
theorem filter_tid_cancelsOf_some (env : Nat → Option (Outcome α ε)) (tid : Nat)
    (o : Outcome α ε) (l : List Nat) (ho : env tid = some o) :
    (cancelsOf env l).filter (fun e => e.tid == tid) = [] := by
  induction l with
  | nil => rfl
  | cons t l ih =>
    by_cases heq : t = tid
    · subst heq
      simp [cancelsOf, List.filter_cons, ho]
      simpa [cancelsOf] using ih
    · cases henv : env t <;>
        simp [cancelsOf, List.filter_cons, henv, Event.tid, heq] <;>
        simpa [cancelsOf] using ih

/-- A task the oracle reports as still pending gets no registrator
call from the first loop. -/
theorem filter_tid_recsOf_none (env : Nat → Option (Outcome α ε)) (tid : Nat)
    (l : List Nat) (ho : env tid = none) :
    (recsOf env l).filter (fun e => e.tid == tid) = [] := by
  induction l with
  | nil => rfl
  | cons t l ih =>
    by_cases heq : t = tid
    · subst heq
      simp [recsOf, List.filterMap_cons, ho]
      simpa [recsOf] using ih
    · cases henv : env t <;>
        simp [recsOf, List.filterMap_cons, henv, List.filter_cons, tid_register_task, heq] <;>
        simpa [recsOf] using ih

/-- A task the oracle reports as still pending receives exactly one
cancellation from the second loop, provided task ids are distinct. -/
theorem filter_tid_cancelsOf_none (env : Nat → Option (Outcome α ε)) (tid : Nat)
    (l : List Nat) (hnd : l.Nodup) (ht : tid ∈ l) (ho : env tid = none) :
    (cancelsOf env l).filter (fun e => e.tid == tid) = [Event.cancel tid] := by
  induction l with
  | nil => cases ht
  | cons t l ih =>
    obtain ⟨htl, hnd'⟩ := List.nodup_cons.mp hnd
    rcases List.mem_cons.mp ht with heq | hmem
    · subst heq
      simp [cancelsOf, List.filter_cons, ho, Event.tid]
      simpa [cancelsOf] using filter_tid_cancelsOf_not_mem env tid l htl
    · have ht' : ¬t = tid := fun hc => htl (hc ▸ hmem)
      cases henv : env t <;>
        simp [cancelsOf, List.filter_cons, henv, Event.tid, ht'] <;>
        simpa [cancelsOf] using ih hnd' hmem

/-- Every event the first loop of `stop` emits is a registrator call. -/
theorem isRecorderCall_of_mem_recsOf (env : Nat → Option (Outcome α ε))
    (l : List Nat) (e : Event α ε) (he : e ∈ recsOf env l) :
    Event.isRecorderCall e = true := by
  obtain ⟨t, -, hmap⟩ := List.mem_filterMap.mp he
  cases henv : env t with
  | none => rw [henv] at hmap; cases hmap
  | some o =>
    rw [henv] at hmap
    obtain rfl : register_task t o = e := by simpa using hmap
    cases o <;> rfl

/-- Every event the second loop of `stop` emits is a cancellation. -/
theorem isCancel_of_mem_cancelsOf (env : Nat → Option (Outcome α ε))
    (l : List Nat) (e : Event α ε) (he : e ∈ cancelsOf env l) :
    Event.isCancel e = true := by
  obtain ⟨t, -, rfl⟩ := List.mem_map.mp he
  rfl

/-- C1: during a successful `stop`, every handle that is finished when
the drain wait returns yields exactly one registrator call —
`register_value` with the task's value if it finished without failure,
`register_error` with the raised exception if it finished by failing —
and every handle still pending when the wait returns receives exactly
one cancellation request and yields no registrator call at all.  The
events concerning handle `tid` are the trace filtered on that id. -/
theorem stop_drain_per_handle (env : Nat → Option (Outcome α ε))
    (s s' : StudentWatcher ρ τ) (evs : List (Event α ε))
    (hnd : s.tasks.Nodup) (h : stop env s = Except.ok (s', evs))
    (tid : Nat) (ht : tid ∈ s.tasks) :
    (∀ v, env tid = some (Outcome.value v) →
      evs.filter (fun e => e.tid == tid) = [Event.register_value tid v]) ∧
    (∀ e, env tid = some (Outcome.error e) →
      evs.filter (fun e' => e'.tid == tid) = [Event.register_error tid e]) ∧
    (env tid = none →
      evs.filter (fun e => e.tid == tid) = [Event.cancel tid]) := by
  obtain ⟨-, -, -, hevs⟩ := stop_ok env s s' evs h
  subst hevs
  refine ⟨?_, ?_, ?_⟩
  · intro v ho
    rw [List.filter_append, filter_tid_recsOf_some env tid (Outcome.value v) s.tasks hnd ht ho,
      filter_tid_cancelsOf_some env tid (Outcome.value v) s.tasks ho]
    rfl
  · intro e ho
    rw [List.filter_append, filter_tid_recsOf_some env tid (Outcome.error e) s.tasks hnd ht ho,
      filter_tid_cancelsOf_some env tid (Outcome.error e) s.tasks ho]
    rfl
  · intro ho
    rw [List.filter_append, filter_tid_recsOf_none env tid s.tasks ho,
      filter_tid_cancelsOf_none env tid s.tasks hnd ht ho]
    rfl

/-- C1 witness: a concrete drain of three tasks — one returning `5`,
one raising `9`, one still pending. -/
theorem stop_drain_per_handle_witness :
    ([Event.register_value 0 5, Event.register_error 1 9,
        (Event.cancel 2 : Event Nat Nat)].filter (fun e => e.tid == 0)
      = [Event.register_value 0 5]) ∧
    ([Event.register_value 0 5, Event.register_error 1 9,
        (Event.cancel 2 : Event Nat Nat)].filter (fun e' => e'.tid == 1)
      = [Event.register_error 1 9]) ∧
    ([Event.register_value 0 5, Event.register_error 1 9,
        (Event.cancel 2 : Event Nat Nat)].filter (fun e => e.tid == 2)
      = [Event.cancel 2]) := by
  refine ⟨?_, ?_, ?_⟩
  · exact (stop_drain_per_handle
      (fun t => if t = 0 then some (Outcome.value 5)
        else if t = 1 then some (Outcome.error 9) else none)
      (⟨(), (none : Option Unit), true, [0, 1, 2], 3⟩ : StudentWatcher Unit Unit)
      ⟨(), none, false, [], 3⟩
      [Event.register_value 0 5, Event.register_error 1 9, Event.cancel 2]
      (by decide) rfl 0 (by decide)).1 5 rfl
  · exact (stop_drain_per_handle
      (fun t => if t = 0 then some (Outcome.value 5)
        else if t = 1 then some (Outcome.error 9) else none)
      (⟨(), (none : Option Unit), true, [0, 1, 2], 3⟩ : StudentWatcher Unit Unit)
      ⟨(), none, false, [], 3⟩
      [Event.register_value 0 5, Event.register_error 1 9, Event.cancel 2]
      (by decide) rfl 1 (by decide)).2.1 9 rfl
  · exact (stop_drain_per_handle
      (fun t => if t = 0 then some (Outcome.value 5)
        else if t = 1 then some (Outcome.error 9) else none)
      (⟨(), (none : Option Unit), true, [0, 1, 2], 3⟩ : StudentWatcher Unit Unit)
      ⟨(), none, false, [], 3⟩
      [Event.register_value 0 5, Event.register_error 1 9, Event.cancel 2]
      (by decide) rfl 2 (by decide)).2.2 rfl

/-- C2: a successful return from `stop` leaves the task list empty and
the running flag down, so a subsequent `start` succeeds. -/
theorem stop_success_resets (env : Nat → Option (Outcome α ε))
    (s s' : StudentWatcher ρ τ) (evs : List (Event α ε))
    (h : stop env s = Except.ok (s', evs)) :
    s'.tasks = [] ∧ s'.is_running = false ∧
    start s' = Except.ok { s' with is_running := true } := by
  obtain ⟨-, -, hs', -⟩ := stop_ok env s s' evs h
  subst hs'
  exact ⟨rfl, rfl, rfl⟩

/-- C2 witness: stopping a watcher with one finished task. -/
theorem stop_success_resets_witness :
    (⟨(), (none : Option Unit), false, [], 1⟩ : StudentWatcher Unit Unit).tasks = [] ∧
    (⟨(), (none : Option Unit), false, [], 1⟩ : StudentWatcher Unit Unit).is_running = false ∧
    start (⟨(), (none : Option Unit), false, [], 1⟩ : StudentWatcher Unit Unit) =
      Except.ok ⟨(), none, true, [], 1⟩ :=
  stop_success_resets
    ((fun _ => some (Outcome.value 0)) : Nat → Option (Outcome Nat Nat))
    ⟨(), none, true, [0], 1⟩ ⟨(), none, false, [], 1⟩
    [Event.register_value 0 0] rfl

/-- C10: in the trace of a successful `stop`, all registrator calls
for finished handles come before all cancellation requests: no
cancellation precedes a registrator call. -/
theorem records_before_cancels (env : Nat → Option (Outcome α ε))
    (s s' : StudentWatcher ρ τ) (evs : List (Event α ε))
    (h : stop env s = Except.ok (s', evs)) :
    ∃ recs cancels, evs = recs ++ cancels ∧
      (∀ e ∈ recs, Event.isRecorderCall e = true) ∧
      (∀ e ∈ cancels, Event.isCancel e = true) := by
  obtain ⟨-, -, -, hevs⟩ := stop_ok env s s' evs h
  exact ⟨recsOf env s.tasks, cancelsOf env s.tasks, hevs,
    fun e he => isRecorderCall_of_mem_recsOf env s.tasks e he,
    fun e he => isCancel_of_mem_cancelsOf env s.tasks e he⟩

/-- C10 witness: a concrete drain with one finished and one pending
task. -/
theorem records_before_cancels_witness :
    ∃ recs cancels,
      [Event.register_value 0 5, (Event.cancel 1 : Event Nat Nat)] = recs ++ cancels ∧
      (∀ e ∈ recs, Event.isRecorderCall e = true) ∧
      (∀ e ∈ cancels, Event.isCancel e = true) :=
  records_before_cancels
    (fun t => if t = 0 then some (Outcome.value 5) else none)
    (⟨(), (none : Option Unit), true, [0, 1], 2⟩ : StudentWatcher Unit Unit)
    ⟨(), none, false, [], 2⟩
    [Event.register_value 0 5, Event.cancel 1] rfl

/-- C4: calling `stop` in the Running state with zero watched tasks
does not succeed: `asyncio.wait` on the empty list raises `ValueError`,
nothing is registered or cancelled, and the watcher stays Running.
This contradicts the documented behaviour (return successfully and
transition to Idle). -/
theorem stop_empty_tasks_raises (env : Nat → Option (Outcome α ε))
    (s : StudentWatcher ρ τ) (hr : s.is_running = true) (he : s.tasks = []) :
    stop env s = Except.error WatcherError.emptyWaitValueError ∧
    step s (Op.stop env) = (s, []) := by
  have hemp : s.tasks.isEmpty = true := by simp [he]
  constructor
  · simp [stop, hr, hemp]
  · simp [step, stop, hr, hemp]

/-- C4 witness: a freshly started watcher with no spawned task. -/
theorem stop_empty_tasks_raises_witness :
    stop (fun _ => (none : Option (Outcome Nat Nat)))
      (⟨(), (none : Option Unit), true, [], 0⟩ : StudentWatcher Unit Unit) =
      Except.error WatcherError.emptyWaitValueError ∧
    step (⟨(), (none : Option Unit), true, [], 0⟩ : StudentWatcher Unit Unit)
      (Op.stop (fun _ => (none : Option (Outcome Nat Nat)))) =
      (⟨(), none, true, [], 0⟩, []) :=
  stop_empty_tasks_raises (fun _ => none) ⟨(), none, true, [], 0⟩ rfl rfl

/-- The two loops of `stop` together issue one event per watched
task. -/
theorem length_recsOf_add_length_cancelsOf (env : Nat → Option (Outcome α ε))
    (l : List Nat) :
    (recsOf env l).length + (cancelsOf env l).length = l.length := by
  induction l with
  | nil => rfl
  | cons t l ih =>
    simp only [recsOf, cancelsOf, List.length_map] at ih ⊢
    cases henv : env t <;>
      simp [List.filterMap_cons, List.filter_cons, henv, List.length_map] <;>
      omega

/-- Every event is either a registrator call or a cancellation, never
both, so the two counts add up to the trace length. -/
theorem countP_rec_add_countP_cancel (evs : List (Event α ε)) :
    evs.countP (fun e => e.isRecorderCall) + evs.countP (fun e => e.isCancel) =
      evs.length := by
  induction evs with
  | nil => rfl
  | cons e evs ih =>
    cases e with
    | register_value t v =>
      rw [List.countP_cons_of_pos _ _ (by rfl),
        List.countP_cons_of_neg _ _ (by simp [Event.isCancel]), List.length_cons]
      omega
    | register_error t e =>
      rw [List.countP_cons_of_pos _ _ (by rfl),
        List.countP_cons_of_neg _ _ (by simp [Event.isCancel]), List.length_cons]
      omega
    | cancel t =>
      rw [List.countP_cons_of_neg _ _ (by simp [Event.isRecorderCall]),
        List.countP_cons_of_pos _ _ (by rfl), List.length_cons]
      omega

/-- Unfolding one call of a trace. -/
theorem run_cons_snd (s : StudentWatcher ρ τ) (op : Op α ε) (ops : List (Op α ε)) :
    (run s (op :: ops)).2 = (step s op).2 ++ (run (step s op).1 ops).2 := rfl

/-- Unfolding one call of a trace, state part. -/
theorem run_cons_fst (s : StudentWatcher ρ τ) (op : Op α ε) (ops : List (Op α ε)) :
    (run s (op :: ops)).1 = (run (step s op).1 ops).1 := rfl

/-- Splitting a trace of calls. -/
theorem run_append (s : StudentWatcher ρ τ) (l1 l2 : List (Op α ε)) :
    run s (l1 ++ l2) =
      ((run (run s l1).1 l2).1, (run s l1).2 ++ (run (run s l1).1 l2).2) := by
  induction l1 generalizing s with
  | nil => simp [run]
  | cons op l1 ih =>
    simp [run, ih]

/-- A spawn on a running watcher appends a fresh task id and emits
nothing. -/
theorem step_spawn (s : StudentWatcher ρ τ) (h : s.is_running = true) :
    step s (Op.spawn : Op α ε) =
      ({ s with tasks := s.tasks ++ [s.next_id], next_id := s.next_id + 1 }, []) := by
  simp [step, start_and_watch, h]

/-- A block of `n` spawns on a running watcher emits nothing, keeps the
watcher running and grows the task list by `n`. -/
theorem run_replicate_spawn (n : Nat) (s : StudentWatcher ρ τ)
    (h : s.is_running = true) :
    (run s (List.replicate n (Op.spawn : Op α ε))).2 = [] ∧
    (run s (List.replicate n (Op.spawn : Op α ε))).1.is_running = true ∧
    (run s (List.replicate n (Op.spawn : Op α ε))).1.tasks.length =
      s.tasks.length + n := by
  induction n generalizing s with
  | zero => simp [run, h]
  | succ n ih =>
    rw [List.replicate_succ]
    obtain ⟨h1, h2, h3⟩ :=
      ih { s with tasks := s.tasks ++ [s.next_id], next_id := s.next_id + 1 } h
    rw [run_cons_snd, run_cons_fst, step_spawn s h]
    refine ⟨by simpa using h1, h2, ?_⟩
    rw [h3]
    simp
    omega

/-- The initial state satisfies the invariant. -/
theorem inv_init (r : ρ) (t : Option τ) : Inv (init r t) := by
  refine ⟨fun _ => rfl, List.nodup_nil, ?_⟩
  intro x hx
  cases hx

/-- Every call preserves the invariant. -/
theorem inv_step (s : StudentWatcher ρ τ) (op : Op α ε) (h : Inv s) :
    Inv (step s op).1 := by
  obtain ⟨h1, h2, h3⟩ := h
  cases op with
  | start =>
    cases hr : s.is_running
    · simp [step, start, hr]
      exact ⟨by simp, h2, h3⟩
    · simp [step, start, hr]
      exact ⟨h1, h2, h3⟩
  | spawn =>
    cases hr : s.is_running
    · simp [step, start_and_watch, hr]
      exact ⟨h1, h2, h3⟩
    · simp [step, start_and_watch, hr]
      refine ⟨by simp, ?_, ?_⟩
      · have hni : s.next_id ∉ s.tasks := fun hc => lt_irrefl _ (h3 _ hc)
        simp [List.nodup_append, h2, hni]
      · intro t htm
        rcases List.mem_append.mp htm with hm | hm
        · exact Nat.lt_succ_of_lt (h3 t hm)
        · simp at hm
          subst hm
          exact Nat.lt_succ_self _
  | stop env =>
    cases hr : s.is_running
    · simp [step, stop, hr]
      exact ⟨h1, h2, h3⟩
    · by_cases hemp : s.tasks.isEmpty
      · simp [step, stop, hr, hemp]
        exact ⟨h1, h2, h3⟩
      · simp [step, stop, hr, hemp]
        refine ⟨fun _ => rfl, List.nodup_nil, ?_⟩
        intro x hx
        cases hx

/-- The invariant holds along every trace of calls. -/
theorem inv_run (s : StudentWatcher ρ τ) (ops : List (Op α ε)) (h : Inv s) :
    Inv (run s ops).1 := by
  induction ops generalizing s with
  | nil => exact h
  | cons op ops ih =>
    rw [run_cons_fst]
    exact ih _ (inv_step s op h)

/-- Splitting a trace of calls, event part. -/
theorem run_append_snd (s : StudentWatcher ρ τ) (l1 l2 : List (Op α ε)) :
    (run s (l1 ++ l2)).2 = (run s l1).2 ++ (run (run s l1).1 l2).2 := by
  rw [run_append]

/-- C3: in a cycle made of `start`, then `n` calls of
`start_and_watch`, then `stop`, the number of registrator calls plus
the number of cancellation requests equals `n`, the number of tasks
spawned in the cycle.  (`start` and `start_and_watch` emit no events,
so the cycle's trace is exactly what `stop` issues.) -/
theorem cycle_event_count (s0 : StudentWatcher ρ τ)
    (h1 : s0.is_running = false) (h2 : s0.tasks = []) (n : Nat)
    (env : Nat → Option (Outcome α ε)) :
    ((run s0 (Op.start :: (List.replicate n Op.spawn ++ [Op.stop env]))).2.countP
        (fun e => e.isRecorderCall)) +
      ((run s0 (Op.start :: (List.replicate n Op.spawn ++ [Op.stop env]))).2.countP
        (fun e => e.isCancel)) = n := by
  have hstart : step s0 (Op.start : Op α ε) = ({ s0 with is_running := true }, []) := by
    simp [step, start, h1]
  obtain ⟨hrepl2, hrun, hlen⟩ :=
    run_replicate_spawn (α := α) (ε := ε) n { s0 with is_running := true } rfl
  have hlen2 : (run { s0 with is_running := true }
      (List.replicate n (Op.spawn : Op α ε))).1.tasks.length = n := by
    rw [hlen, show ({ s0 with is_running := true } : StudentWatcher ρ τ).tasks = s0.tasks
      from rfl, h2]
    exact Nat.zero_add n
  have htrace : (run s0 (Op.start :: (List.replicate n Op.spawn ++ [Op.stop env]))).2
      = (step (run { s0 with is_running := true }
          (List.replicate n (Op.spawn : Op α ε))).1 (Op.stop env)).2 := by
    rw [run_cons_snd, hstart]
    show [] ++ (run { s0 with is_running := true }
      (List.replicate n Op.spawn ++ [Op.stop env])).2 = _
    rw [List.nil_append, run_append_snd, hrepl2, List.nil_append, run_cons_snd]
    show _ ++ ([] : List (Event α ε)) = _
    rw [List.append_nil]
  rw [htrace]
  by_cases hemp : (run { s0 with is_running := true }
      (List.replicate n (Op.spawn : Op α ε))).1.tasks.isEmpty
  · have hn : n = 0 := by
      rw [← hlen2]
      rw [List.isEmpty_iff] at hemp
      rw [hemp]
      rfl
    have hstep : step (run { s0 with is_running := true }
        (List.replicate n (Op.spawn : Op α ε))).1 (Op.stop env) =
        ((run { s0 with is_running := true }
          (List.replicate n (Op.spawn : Op α ε))).1, []) := by
      simp [step, stop, hrun, hemp]
    rw [hstep, hn]
    rfl
  · have hstep : (step (run { s0 with is_running := true }
        (List.replicate n (Op.spawn : Op α ε))).1 (Op.stop env)).2 =
        recsOf env (run { s0 with is_running := true }
          (List.replicate n (Op.spawn : Op α ε))).1.tasks ++
        cancelsOf env (run { s0 with is_running := true }
          (List.replicate n (Op.spawn : Op α ε))).1.tasks := by
      simp [step, stop, hrun, hemp]
    rw [hstep, countP_rec_add_countP_cancel, List.length_append,
      length_recsOf_add_length_cancelsOf, hlen2]

/-- C3 witness: a cycle with two spawned tasks, one finishing with a
value and one still pending at the drain deadline. -/
theorem cycle_event_count_witness :
    ((run (init () (none : Option Unit))
        (Op.start :: (List.replicate 2 Op.spawn ++
          [Op.stop (fun t => if t = 0 then some (Outcome.value 3)
            else (none : Option (Outcome Nat Nat)))]))).2.countP
      (fun e => e.isRecorderCall)) +
      ((run (init () (none : Option Unit))
        (Op.start :: (List.replicate 2 Op.spawn ++
          [Op.stop (fun t => if t = 0 then some (Outcome.value 3)
            else (none : Option (Outcome Nat Nat)))]))).2.countP
      (fun e => e.isCancel)) = 2 :=
  cycle_event_count (init () none) rfl rfl 2 _

/-- C5 counterexample: `start` does not clear a stale task list.  On a
non-running state still carrying task 7, `start` succeeds and the task
list afterwards is `[7]`, not empty. -/
theorem start_no_clear_counterexample :
    start (⟨(), (none : Option Unit), false, [7], 8⟩ : StudentWatcher Unit Unit) =
      Except.ok ⟨(), none, true, [7], 8⟩ ∧
    (⟨(), (none : Option Unit), true, [7], 8⟩ : StudentWatcher Unit Unit).tasks ≠ [] :=
  ⟨rfl, by decide⟩

/-- C5 (amended): a successful `start` transitions Idle to Running and
leaves the task list unchanged; on every reachable state the list is
already empty when `start` succeeds, so immediately after `start` the
in-flight sequence is empty. -/
theorem start_reachable_empty (r : ρ) (t : Option τ) (ops : List (Op α ε))
    (s' : StudentWatcher ρ τ)
    (h : start (run (init r t) ops).1 = Except.ok s') :
    s'.is_running = true ∧ s'.tasks = (run (init r t) ops).1.tasks ∧
    s'.tasks = [] := by
  have hinv := inv_run (init r t) ops (inv_init r t)
  cases hr : (run (init r t) ops).1.is_running
  · have htasks := hinv.1 hr
    unfold start at h
    rw [hr] at h
    simp only [Bool.false_eq_true, if_false, Except.ok.injEq] at h
    subst h
    exact ⟨rfl, rfl, htasks⟩
  · unfold start at h
    rw [hr] at h
    simp at h

/-- C5 witness: starting a freshly constructed watcher. -/
theorem start_reachable_empty_witness :
    (⟨(), (none : Option Unit), true, [], 0⟩ : StudentWatcher Unit Unit).is_running = true ∧
    (⟨(), (none : Option Unit), true, [], 0⟩ : StudentWatcher Unit Unit).tasks =
      (run (init () (none : Option Unit)) ([] : List (Op Nat Nat))).1.tasks ∧
    (⟨(), (none : Option Unit), true, [], 0⟩ : StudentWatcher Unit Unit).tasks = [] :=
  start_reachable_empty () none [] _ rfl

/-- C6: calling `stop` or `start_and_watch` while Idle raises the
not-running `RuntimeError`, and the state — task list and running flag
— is left untouched, with no handle admitted and no event emitted. -/
theorem idle_calls_fail (s : StudentWatcher ρ τ) (env : Nat → Option (Outcome α ε))
    (h : s.is_running = false) :
    stop env s = Except.error WatcherError.notRunning ∧
    start_and_watch s = Except.error WatcherError.notRunning ∧
    step s (Op.stop env) = (s, []) ∧
    step s (Op.spawn : Op α ε) = (s, []) := by
  refine ⟨?_, ?_, ?_, ?_⟩ <;> simp [stop, start_and_watch, step, h]

/-- C6 witness: a freshly constructed, never started watcher. -/
theorem idle_calls_fail_witness :
    stop (fun _ => (none : Option (Outcome Nat Nat)))
      (⟨(), (none : Option Unit), false, [], 0⟩ : StudentWatcher Unit Unit) =
      Except.error WatcherError.notRunning ∧
    start_and_watch (⟨(), (none : Option Unit), false, [], 0⟩ : StudentWatcher Unit Unit) =
      Except.error WatcherError.notRunning ∧
    step (⟨(), (none : Option Unit), false, [], 0⟩ : StudentWatcher Unit Unit)
      (Op.stop (fun _ => (none : Option (Outcome Nat Nat)))) =
      (⟨(), none, false, [], 0⟩, []) ∧
    step (⟨(), (none : Option Unit), false, [], 0⟩ : StudentWatcher Unit Unit)
      (Op.spawn : Op Nat Nat) = (⟨(), none, false, [], 0⟩, []) :=
  idle_calls_fail _ _ rfl

/-- C7: calling `start` while already Running raises the
already-running `RuntimeError` and leaves the whole state unchanged:
still running, task list untouched, no event emitted. -/
theorem start_running_fails (s : StudentWatcher ρ τ) (h : s.is_running = true) :
    start s = Except.error WatcherError.alreadyRunning ∧
    step s (Op.start : Op α ε) = (s, []) := by
  constructor <;> simp [start, step, h]

/-- C7 witness: a running watcher with one task in flight. -/
theorem start_running_fails_witness :
    start (⟨(), (none : Option Unit), true, [0], 1⟩ : StudentWatcher Unit Unit) =
      Except.error WatcherError.alreadyRunning ∧
    step (⟨(), (none : Option Unit), true, [0], 1⟩ : StudentWatcher Unit Unit)
      (Op.start : Op Nat Nat) = (⟨(), none, true, [0], 1⟩, []) :=
  start_running_fails _ rfl

/-- C8: in every state reachable by any sequence of calls from a
freshly constructed watcher, the task list is non-empty only while the
running flag is up; and any `stop` call from such a state — whether it
succeeds or raises — returns with the task list empty. -/
theorem inflight_empty_unless_running (r : ρ) (t : Option τ)
    (ops : List (Op α ε)) (env : Nat → Option (Outcome α ε)) :
    ((run (init r t) ops).1.tasks ≠ [] → (run (init r t) ops).1.is_running = true) ∧
    (step (run (init r t) ops).1 (Op.stop env)).1.tasks = [] := by
  have hinv := inv_run (init r t) ops (inv_init r t)
  constructor
  · intro hne
    cases hr : (run (init r t) ops).1.is_running
    · exact absurd (hinv.1 hr) hne
    · rfl
  · cases hr : (run (init r t) ops).1.is_running
    · simp [step, stop, hr]
      exact hinv.1 hr
    · by_cases hemp : (run (init r t) ops).1.tasks.isEmpty
      · simp [step, stop, hr, hemp]
        exact List.isEmpty_iff.mp hemp
      · simp [step, stop, hr, hemp]

/-- C8 witness: after `start` and one spawn the watcher is running
(its task list being non-empty), and a `stop` from there leaves the
task list empty. -/
theorem inflight_empty_unless_running_witness :
    (run (init () (none : Option Unit)) ([Op.start, Op.spawn] : List (Op Nat Nat))).1.is_running
      = true ∧
    (step (run (init () (none : Option Unit)) ([Op.start, Op.spawn] : List (Op Nat Nat))).1
      (Op.stop (fun _ => none) : Op Nat Nat)).1.tasks = [] := by
  have h := inflight_empty_unless_running () (none : Option Unit)
    ([Op.start, Op.spawn] : List (Op Nat Nat)) (fun _ => none)
  exact ⟨h.1 (by decide), h.2⟩

/-- C9: the registrator reference and the timeout are those supplied at
construction, and no call — `start`, `start_and_watch` or `stop`,
succeeding or raising — modifies either field. -/
theorem frame_registrator_timeout (r : ρ) (t : Option τ)
    (s : StudentWatcher ρ τ) (op : Op α ε) :
    (init r t).registrator = r ∧ (init r t).timeout = t ∧
    (step s op).1.registrator = s.registrator ∧
    (step s op).1.timeout = s.timeout := by
  have hframe : (step s op).1.registrator = s.registrator ∧
      (step s op).1.timeout = s.timeout := by
    cases op with
    | start => cases hr : s.is_running <;> simp [step, start, hr]
    | spawn => cases hr : s.is_running <;> simp [step, start_and_watch, hr]
    | stop env =>
      cases hr : s.is_running
      · simp [step, stop, hr]
      · by_cases hemp : s.tasks.isEmpty <;> simp [step, stop, hr, hemp]
  exact ⟨rfl, rfl, hframe.1, hframe.2⟩

end AbstractWatcher
